import Mathlib

/-!
Verification of the `richat` agave plugin layer
(`plugin-agave/src/plugin.rs`, `plugin-agave/src/config.rs`).

The configuration is deserialized from JSON with strict-schema semantics
(`deny_unknown_fields`) and container-level defaults; we model JSON values
with `JValue` and the serde-derived decoders with explicit Lean functions.
-/

set_option maxHeartbeats 1000000

namespace Richat

/-- A JSON value, the input domain of the configuration decoders. An object is
a list of key/value fields in document order. -/
inductive JValue where
  | null : JValue
  | bool (b : Bool) : JValue
  | num (n : Nat) : JValue
  | str (s : String) : JValue
  | arr (xs : List JValue) : JValue
  | obj (fields : List (String × JValue)) : JValue

/-- Encoding mode of the channel (`crate::protobuf::ProtobufEncoder`).
Modelled from the spec: the protobuf module is not under `src/`; the spec
describes two interchangeable modes, an internal raw form and a canonical
cross-process form (`prost`). -/
inductive ProtobufEncoder where
  | raw : ProtobufEncoder
  | prost : ProtobufEncoder
deriving DecidableEq

/-- Log section of the configuration (`ConfigLogs` in config.rs). -/
structure ConfigLogs where
  level : String
deriving DecidableEq

/-- Rust `impl Default for ConfigLogs`. -/
def ConfigLogs.default : ConfigLogs :=
  { level := "info" }

/-- Channel section of the configuration (`ConfigChannel` in config.rs). -/
structure ConfigChannel where
  encoder : ProtobufEncoder
  max_messages : Nat
  max_bytes : Nat
deriving DecidableEq

/-- Rust `impl Default for ConfigChannel`. -/
def ConfigChannel.default : ConfigChannel :=
  { encoder := ProtobufEncoder.raw
    max_messages := 2097152
    max_bytes := 15 * 1024 * 1024 * 1024 }

/-- Filter section of the configuration (`ConfigFilters` in config.rs). -/
structure ConfigFilters where
  enable_account_update : Bool
  enable_transaction_update : Bool
  max_account_data_size : Option Nat
deriving DecidableEq

/-- Rust `impl Default for ConfigFilters`. -/
def ConfigFilters.default : ConfigFilters :=
  { enable_account_update := true
    enable_transaction_update := true
    max_account_data_size := none }

/-- Modelled from the spec: metrics endpoint configuration
(`richat_metrics::ConfigMetrics`, repository code not under `src/`). Its
internal validation is out of scope; the section is carried opaquely. -/
structure ConfigMetrics where
  raw : JValue

/-- Modelled from the spec: async-runtime tuning
(`richat_shared::config::ConfigTokio`, repository code not under `src/`).
Carried opaquely. -/
structure ConfigTokio where
  raw : JValue

/-- Default runtime tuning section (Rust `ConfigTokio: Default`). -/
def ConfigTokio.default : ConfigTokio :=
  { raw := JValue.null }

/-- Modelled from the spec: QUIC listener configuration
(`richat_shared::transports::quic::ConfigQuicServer`, repository code not
under `src/`). Carried opaquely. -/
structure ConfigQuicServer where
  raw : JValue

/-- Modelled from the spec: gRPC listener configuration
(`richat_shared::transports::grpc::ConfigGrpcServer`, repository code not
under `src/`). Carried opaquely. -/
structure ConfigGrpcServer where
  raw : JValue

/-- Top-level configuration (`Config` in config.rs). -/
structure Config where
  libpath : String
  logs : ConfigLogs
  metrics : Option ConfigMetrics
  tokio : ConfigTokio
  channel : ConfigChannel
  filters : ConfigFilters
  quic : Option ConfigQuicServer
  grpc : Option ConfigGrpcServer

/-- First key of `fields` that is not in `known`, if any. Models serde's
`deny_unknown_fields` scan over the keys of an input object. -/
def findUnknown (known : List String) (fields : List (String × JValue)) : Option String :=
  (fields.find? (fun kv => !(known.contains kv.1))).map Prod.fst

/-- Decode one field of an object with container-level `default` semantics:
a present field is decoded with `dec`, an absent field takes the value from
the container's `Default` instance. -/
def decodeField {α : Type} (fields : List (String × JValue)) (key : String)
    (dec : JValue → Except String α) (dflt : α) : Except String α :=
  match fields.lookup key with
  | some v => dec v
  | none => Except.ok dflt

/-- serde string visitor. -/
def decodeString : JValue → Except String String
  | JValue.str s => Except.ok s
  | _ => Except.error "invalid type: expected a string"

/-- serde bool visitor. -/
def decodeBool : JValue → Except String Bool
  | JValue.bool b => Except.ok b
  | _ => Except.error "invalid type: expected a boolean"

/-- serde `Option<usize>` visitor: `null` is `None`, a number is `Some`. -/
def decodeOptionNat : JValue → Except String (Option Nat)
  | JValue.null => Except.ok none
  | JValue.num n => Except.ok (some n)
  | _ => Except.error "invalid type: expected an integer or null"

/-- serde `Option<T>` visitor: `null` is `None`, anything else decodes as `T`. -/
def decodeOption {α : Type} (dec : JValue → Except String α) : JValue → Except String (Option α)
  | JValue.null => Except.ok none
  | v => (dec v).map some

/-- Decoder of `ConfigMetrics` sections; always succeeds (see `ConfigMetrics`). -/
def ConfigMetrics.deserialize (j : JValue) : Except String ConfigMetrics :=
  Except.ok { raw := j }

/-- Decoder of `ConfigTokio` sections; always succeeds (see `ConfigTokio`). -/
def ConfigTokio.deserialize (j : JValue) : Except String ConfigTokio :=
  Except.ok { raw := j }

/-- Decoder of `ConfigQuicServer` sections; always succeeds (see `ConfigQuicServer`). -/
def ConfigQuicServer.deserialize (j : JValue) : Except String ConfigQuicServer :=
  Except.ok { raw := j }

/-- Decoder of `ConfigGrpcServer` sections; always succeeds (see `ConfigGrpcServer`). -/
def ConfigGrpcServer.deserialize (j : JValue) : Except String ConfigGrpcServer :=
  Except.ok { raw := j }

/-- `ConfigChannel::deserialize_encoder` in config.rs: only the strings
`"prost"` and `"raw"` are accepted. -/
def ConfigChannel.deserialize_encoder : JValue → Except String ProtobufEncoder
  | JValue.str "prost" => Except.ok ProtobufEncoder.prost
  | JValue.str "raw" => Except.ok ProtobufEncoder.raw
  | JValue.str v => Except.error ("failed to decode encoder: " ++ v)
  | _ => Except.error "invalid type: expected a string"

/-- Modelled from the spec: `richat_shared::config::deserialize_num_str`
(repository code not under `src/`): an integer given either as a number or
as its decimal-string form. -/
def deserialize_num_str : JValue → Except String Nat
  | JValue.num n => Except.ok n
  | JValue.str s =>
    match s.toNat? with
    | some n => Except.ok n
    | none => Except.error ("failed to parse number: " ++ s)
  | _ => Except.error "invalid type: expected an integer or a string"

/-- Multiplier of a human-readable binary-size unit suffix. -/
def humanSizeUnit : String → Option Nat
  | "" => some 1
  | "KiB" => some 1024
  | "MiB" => some (1024 * 1024)
  | "GiB" => some (1024 * 1024 * 1024)
  | _ => none

/-- Modelled from the spec: `richat_shared::config::deserialize_humansize_usize`
(repository code not under `src/`): a byte count given as a number or as a
human-readable size string such as `"15GiB"`. -/
def deserialize_humansize_usize : JValue → Except String Nat
  | JValue.num n => Except.ok n
  | JValue.str s =>
    let digits := s.takeWhile Char.isDigit
    let unit := s.dropWhile Char.isDigit
    match digits.toNat?, humanSizeUnit unit with
    | some n, some mult => Except.ok (n * mult)
    | _, _ => Except.error ("failed to parse size: " ++ s)
  | _ => Except.error "invalid type: expected a size"

/-- Keys accepted by the `ConfigLogs` schema. -/
def configLogsKeys : List String := ["level"]

/-- serde-derived decoder of `ConfigLogs` (`deny_unknown_fields, default`). -/
def ConfigLogs.deserialize (j : JValue) : Except String ConfigLogs :=
  match j with
  | JValue.obj fields =>
    match findUnknown configLogsKeys fields with
    | some k => Except.error ("unknown field " ++ k)
    | none => do
      let level ← decodeField fields "level" decodeString ConfigLogs.default.level
      Except.ok { level := level }
  | _ => Except.error "invalid type: expected an object"

/-- Keys accepted by the `ConfigChannel` schema. -/
def configChannelKeys : List String := ["encoder", "max_messages", "max_bytes"]

/-- serde-derived decoder of `ConfigChannel` (`deny_unknown_fields, default`). -/
def ConfigChannel.deserialize (j : JValue) : Except String ConfigChannel :=
  match j with
  | JValue.obj fields =>
    match findUnknown configChannelKeys fields with
    | some k => Except.error ("unknown field " ++ k)
    | none => do
      let encoder ← decodeField fields "encoder" ConfigChannel.deserialize_encoder
        ConfigChannel.default.encoder
      let max_messages ← decodeField fields "max_messages" deserialize_num_str
        ConfigChannel.default.max_messages
      let max_bytes ← decodeField fields "max_bytes" deserialize_humansize_usize
        ConfigChannel.default.max_bytes
      Except.ok { encoder := encoder, max_messages := max_messages, max_bytes := max_bytes }
  | _ => Except.error "invalid type: expected an object"

/-- Keys accepted by the `ConfigFilters` schema. -/
def configFiltersKeys : List String :=
  ["enable_account_update", "enable_transaction_update", "max_account_data_size"]

/-- serde-derived decoder of `ConfigFilters` (`deny_unknown_fields, default`). -/
def ConfigFilters.deserialize (j : JValue) : Except String ConfigFilters :=
  match j with
  | JValue.obj fields =>
    match findUnknown configFiltersKeys fields with
    | some k => Except.error ("unknown field " ++ k)
    | none => do
      let ea ← decodeField fields "enable_account_update" decodeBool
        ConfigFilters.default.enable_account_update
      let et ← decodeField fields "enable_transaction_update" decodeBool
        ConfigFilters.default.enable_transaction_update
      let ms ← decodeField fields "max_account_data_size" decodeOptionNat
        ConfigFilters.default.max_account_data_size
      Except.ok { enable_account_update := ea, enable_transaction_update := et,
                  max_account_data_size := ms }
  | _ => Except.error "invalid type: expected an object"

/-- Keys accepted by the top-level `Config` schema. -/
def configKeys : List String :=
  ["libpath", "logs", "metrics", "tokio", "channel", "filters", "quic", "grpc"]

/-- serde-derived decoder of the top-level `Config`
(`deny_unknown_fields, default`). -/
def Config.deserialize (j : JValue) : Except String Config :=
  match j with
  | JValue.obj fields =>
    match findUnknown configKeys fields with
    | some k => Except.error ("unknown field " ++ k)
    | none => do
      let libpath ← decodeField fields "libpath" decodeString ""
      let logs ← decodeField fields "logs" ConfigLogs.deserialize ConfigLogs.default
      let metrics ← decodeField fields "metrics" (decodeOption ConfigMetrics.deserialize) none
      let tokio ← decodeField fields "tokio" ConfigTokio.deserialize ConfigTokio.default
      let channel ← decodeField fields "channel" ConfigChannel.deserialize ConfigChannel.default
      let filters ← decodeField fields "filters" ConfigFilters.deserialize ConfigFilters.default
      let quic ← decodeField fields "quic" (decodeOption ConfigQuicServer.deserialize) none
      let grpc ← decodeField fields "grpc" (decodeOption ConfigGrpcServer.deserialize) none
      Except.ok { libpath := libpath, logs := logs, metrics := metrics, tokio := tokio,
                  channel := channel, filters := filters, quic := quic, grpc := grpc }
  | _ => Except.error "invalid type: expected an object"

/-- Host-reported plugin error (`GeyserPluginError`); only the variants the
embedded code constructs. `configFileOpenError` wraps an I/O error message,
`configFileReadError` a parse/schema message. -/
inductive GeyserPluginError where
  | configFileOpenError (ioMsg : String) : GeyserPluginError
  | configFileReadError (msg : String) : GeyserPluginError
  | custom (msg : String) : GeyserPluginError
deriving DecidableEq

/-- `Config::load_from_str` in config.rs: a parse or schema failure becomes a
`ConfigFileReadError` carrying the decoder's message. The input is the file's
text already tokenised to a `JValue`; syntactically malformed text surfaces
through the same `ConfigFileReadError` variant in the source and is subsumed
by the schema-failure case here. -/
def Config.load_from_str (j : JValue) : Except GeyserPluginError Config :=
  (Config.deserialize j).mapError (fun msg => GeyserPluginError.configFileReadError msg)

/-- `Config::load_from_file` in config.rs: reading the file can fail with an
I/O error (`ConfigFileOpenError`); the content is then parsed with
`load_from_str`. The filesystem is a map from file name to either an I/O
error message or the file's parsed content. -/
def Config.load_from_file (fs : String → Except String JValue) (file : String) :
    Except GeyserPluginError Config :=
  match fs file with
  | Except.error ioMsg => Except.error (GeyserPluginError.configFileOpenError ioMsg)
  | Except.ok content => Config.load_from_str content

/-- Newest account payload (`ReplicaAccountInfoV3` of the host interface).
Only `data` is inspected by the plugin; the remaining host-supplied fields
are never read and are elided. -/
structure ReplicaAccountInfoV3 where
  data : List Nat
deriving DecidableEq

/-- Opaque newest transaction payload (`ReplicaTransactionInfoV3`); never
inspected by the plugin. -/
structure ReplicaTransactionInfoV3 where
deriving DecidableEq

/-- Opaque newest entry payload (`ReplicaEntryInfoV2`); never inspected by
the plugin. -/
structure ReplicaEntryInfoV2 where
deriving DecidableEq

/-- Opaque newest block-metadata payload (`ReplicaBlockInfoV4`); never
inspected by the plugin. -/
structure ReplicaBlockInfoV4 where
deriving DecidableEq

/-- Version-tagged account callbacks (`ReplicaAccountInfoVersions`). The
payloads of the unsupported older versions are never read, so they are
carried as `Unit`. -/
inductive ReplicaAccountInfoVersions where
  | v0_0_1 (info : Unit) : ReplicaAccountInfoVersions
  | v0_0_2 (info : Unit) : ReplicaAccountInfoVersions
  | v0_0_3 (info : ReplicaAccountInfoV3) : ReplicaAccountInfoVersions
deriving DecidableEq

/-- Version-tagged transaction callbacks (`ReplicaTransactionInfoVersions`). -/
inductive ReplicaTransactionInfoVersions where
  | v0_0_1 (info : Unit) : ReplicaTransactionInfoVersions
  | v0_0_2 (info : Unit) : ReplicaTransactionInfoVersions
  | v0_0_3 (info : ReplicaTransactionInfoV3) : ReplicaTransactionInfoVersions
deriving DecidableEq

/-- Version-tagged entry callbacks (`ReplicaEntryInfoVersions`). -/
inductive ReplicaEntryInfoVersions where
  | v0_0_1 (entry : Unit) : ReplicaEntryInfoVersions
  | v0_0_2 (entry : ReplicaEntryInfoV2) : ReplicaEntryInfoVersions
deriving DecidableEq

/-- Version-tagged block-metadata callbacks (`ReplicaBlockInfoVersions`). -/
inductive ReplicaBlockInfoVersions where
  | v0_0_1 (info : Unit) : ReplicaBlockInfoVersions
  | v0_0_2 (info : Unit) : ReplicaBlockInfoVersions
  | v0_0_3 (info : Unit) : ReplicaBlockInfoVersions
  | v0_0_4 (info : ReplicaBlockInfoV4) : ReplicaBlockInfoVersions
deriving DecidableEq

/-- Slot status of the host interface (`SlotStatus`); the plugin forwards it
without inspection. -/
inductive SlotStatus where
  | processed : SlotStatus
  | rooted : SlotStatus
  | confirmed : SlotStatus
  | firstShredReceived : SlotStatus
  | completed : SlotStatus
  | createdBank : SlotStatus
  | dead (err : String) : SlotStatus
deriving DecidableEq

/-- Typed event pushed into the channel (`ProtobufMessage`). -/
inductive ProtobufMessage where
  | account (slot : Nat) (account : ReplicaAccountInfoV3) : ProtobufMessage
  | slot (slot : Nat) (parent : Option Nat) (status : SlotStatus) : ProtobufMessage
  | transaction (slot : Nat) (transaction : ReplicaTransactionInfoV3) : ProtobufMessage
  | entry (entry : ReplicaEntryInfoV2) : ProtobufMessage
  | blockMeta (blockinfo : ReplicaBlockInfoV4) : ProtobufMessage
deriving DecidableEq

/-- Modelled from the spec: the Retention Channel's producer handle
(`crate::channel::Sender`, repository code not under `src/`). Per the spec,
`push` appends the event and always succeeds (capacity pressure is resolved
by evicting old messages, never by rejecting the write), and `close` is
idempotent and marks the producer side terminated. Eviction and consumer
cursors are out of scope of the claims, so only the ordered list of pushed
events and the closed flag are kept. -/
structure Sender where
  pushed : List ProtobufMessage
  closed : Bool
deriving DecidableEq

/-- Channel append; always succeeds. The encoder argument matches the source
signature; the byte-level encoding itself is out of scope. -/
def Sender.push (s : Sender) (message : ProtobufMessage) (_encoder : ProtobufEncoder) : Sender :=
  { s with pushed := s.pushed ++ [message] }

/-- Channel close; idempotent. -/
def Sender.close (s : Sender) : Sender :=
  { s with closed := true }

/-- Eventual join outcome of a spawned service task (`Result<(), JoinError>`). -/
inductive JoinResult where
  | ok : JoinResult
  | err (msg : String) : JoinResult
deriving DecidableEq

/-- Live plugin state (`PluginInner`). The Tokio runtime and the cancellation
token have no in-memory content the claims inspect; their use during unload
is captured by the `ShutdownAction` trace. Each spawned task carries its
human-readable name and its eventual join outcome. -/
structure PluginInner where
  messages : Sender
  encoder : ProtobufEncoder
  tasks : List (String × JoinResult)
  filters : ConfigFilters
deriving DecidableEq

/-- The plugin (`Plugin`): `inner` is `none` before a successful load and
after unload. -/
structure Plugin where
  inner : Option PluginInner
deriving DecidableEq

/-- Outcome of a host-invoked callback: a normal return (`Ok`/plain value),
a returned error, or a thread panic (`unreachable!` / `expect`) carrying the
panic message. -/
inductive CallResult (α : Type) where
  | ok (a : α) : CallResult α
  | errorReturn (e : GeyserPluginError) : CallResult α
  | panicked (msg : String) : CallResult α
deriving DecidableEq

/-- Observable step of `on_unload`, in execution order: channel close,
cancellation-token raise, per-task join (successful, or with the join error
logged), and the final bounded runtime teardown
(`Runtime::shutdown_timeout`) whose argument is the bound in seconds. -/
inductive ShutdownAction where
  | closeChannel : ShutdownAction
  | cancelToken : ShutdownAction
  | joinOk (name : String) : ShutdownAction
  | joinLoggedError (name : String) (error : String) : ShutdownAction
  | runtimeShutdownTimeout (secs : Nat) : ShutdownAction
deriving DecidableEq

/-- Trace step produced by awaiting one task's join inside `on_unload`:
an `Err` on join is logged, an `Ok` is silently consumed. -/
def joinAction : String × JoinResult → ShutdownAction
  | (name, JoinResult.ok) => ShutdownAction.joinOk name
  | (name, JoinResult.err m) => ShutdownAction.joinLoggedError name m

/-- `Plugin::on_unload` in plugin.rs: if loaded, take the inner state, close
the channel, cancel the shutdown token, await every task's join (logging
errors), then tear the runtime down with a 10-second bound. Returns the new
plugin state and the trace of shutdown actions. -/
def Plugin.on_unload (p : Plugin) : Plugin × List ShutdownAction :=
  match p.inner with
  | none => (p, [])
  | some inner =>
    ({ inner := none },
      ShutdownAction.closeChannel :: ShutdownAction.cancelToken ::
        (inner.tasks.map joinAction ++ [ShutdownAction.runtimeShutdownTimeout 10]))

/-- `Plugin::update_account` in plugin.rs. When `is_startup` is set the body
is skipped and `Ok(())` is returned. Otherwise the two older account versions
hit `unreachable!`, the inner state is taken with `expect("initialized")`,
the account-data-size filter may drop the event, and the event is pushed. -/
def Plugin.update_account (p : Plugin) (account : ReplicaAccountInfoVersions)
    (slot : Nat) (is_startup : Bool) : Plugin × CallResult Unit :=
  if is_startup then
    (p, CallResult.ok ())
  else
    match account with
    | ReplicaAccountInfoVersions.v0_0_1 _ =>
      (p, CallResult.panicked "ReplicaAccountInfoVersions::V0_0_1 is not supported")
    | ReplicaAccountInfoVersions.v0_0_2 _ =>
      (p, CallResult.panicked "ReplicaAccountInfoVersions::V0_0_2 is not supported")
    | ReplicaAccountInfoVersions.v0_0_3 info =>
      match p.inner with
      | none => (p, CallResult.panicked "initialized")
      | some inner =>
        match inner.filters.max_account_data_size with
        | some max_size =>
          if info.data.length > max_size then
            (p, CallResult.ok ())
          else
            ({ inner := some { inner with
                messages := inner.messages.push (ProtobufMessage.account slot info) inner.encoder } },
              CallResult.ok ())
        | none =>
          ({ inner := some { inner with
              messages := inner.messages.push (ProtobufMessage.account slot info) inner.encoder } },
            CallResult.ok ())

/-- `Plugin::notify_end_of_startup` in plugin.rs: unconditionally `Ok(())`. -/
def Plugin.notify_end_of_startup (p : Plugin) : Plugin × CallResult Unit :=
  (p, CallResult.ok ())

/-- `Plugin::update_slot_status` in plugin.rs: take the inner state with
`expect("initialized")` and push the slot event. -/
def Plugin.update_slot_status (p : Plugin) (slot : Nat) (parent : Option Nat)
    (status : SlotStatus) : Plugin × CallResult Unit :=
  match p.inner with
  | none => (p, CallResult.panicked "initialized")
  | some inner =>
    ({ inner := some { inner with
        messages := inner.messages.push (ProtobufMessage.slot slot parent status) inner.encoder } },
      CallResult.ok ())

/-- `Plugin::notify_transaction` in plugin.rs: the two older transaction
versions hit `unreachable!` (with the source's literal copy-pasted messages
naming `ReplicaAccountInfoVersions`); the newest is pushed. -/
def Plugin.notify_transaction (p : Plugin) (transaction : ReplicaTransactionInfoVersions)
    (slot : Nat) : Plugin × CallResult Unit :=
  match transaction with
  | ReplicaTransactionInfoVersions.v0_0_1 _ =>
    (p, CallResult.panicked "ReplicaAccountInfoVersions::V0_0_1 is not supported")
  | ReplicaTransactionInfoVersions.v0_0_2 _ =>
    (p, CallResult.panicked "ReplicaAccountInfoVersions::V0_0_2 is not supported")
  | ReplicaTransactionInfoVersions.v0_0_3 info =>
    match p.inner with
    | none => (p, CallResult.panicked "initialized")
    | some inner =>
      ({ inner := some { inner with
          messages := inner.messages.push (ProtobufMessage.transaction slot info) inner.encoder } },
        CallResult.ok ())

/-- `Plugin::notify_entry` in plugin.rs: the older entry version hits
`unreachable!`; the newest is pushed. -/
def Plugin.notify_entry (p : Plugin) (entry : ReplicaEntryInfoVersions) :
    Plugin × CallResult Unit :=
  match entry with
  | ReplicaEntryInfoVersions.v0_0_1 _ =>
    (p, CallResult.panicked "ReplicaEntryInfoVersions::V0_0_1 is not supported")
  | ReplicaEntryInfoVersions.v0_0_2 e =>
    match p.inner with
    | none => (p, CallResult.panicked "initialized")
    | some inner =>
      ({ inner := some { inner with
          messages := inner.messages.push (ProtobufMessage.entry e) inner.encoder } },
        CallResult.ok ())

/-- `Plugin::notify_block_metadata` in plugin.rs: the three older
block-metadata versions hit `unreachable!`; the newest is pushed. -/
def Plugin.notify_block_metadata (p : Plugin) (blockinfo : ReplicaBlockInfoVersions) :
    Plugin × CallResult Unit :=
  match blockinfo with
  | ReplicaBlockInfoVersions.v0_0_1 _ =>
    (p, CallResult.panicked "ReplicaBlockInfoVersions::V0_0_1 is not supported")
  | ReplicaBlockInfoVersions.v0_0_2 _ =>
    (p, CallResult.panicked "ReplicaBlockInfoVersions::V0_0_2 is not supported")
  | ReplicaBlockInfoVersions.v0_0_3 _ =>
    (p, CallResult.panicked "ReplicaBlockInfoVersions::V0_0_3 is not supported")
  | ReplicaBlockInfoVersions.v0_0_4 info =>
    match p.inner with
    | none => (p, CallResult.panicked "initialized")
    | some inner =>
      ({ inner := some { inner with
          messages := inner.messages.push (ProtobufMessage.blockMeta info) inner.encoder } },
        CallResult.ok ())

/-- `Plugin::account_data_notifications_enabled` in plugin.rs: the
configured `enable_account_update` flag, via `expect("initialized")`. -/
def Plugin.account_data_notifications_enabled (p : Plugin) : CallResult Bool :=
  match p.inner with
  | none => CallResult.panicked "initialized"
  | some inner => CallResult.ok inner.filters.enable_account_update

/-- `Plugin::account_data_snapshot_notifications_enabled` in plugin.rs:
unconditionally `false`. -/
def Plugin.account_data_snapshot_notifications_enabled (_p : Plugin) : CallResult Bool :=
  CallResult.ok false

/-- `Plugin::transaction_notifications_enabled` in plugin.rs: the configured
`enable_transaction_update` flag, via `expect("initialized")`. -/
def Plugin.transaction_notifications_enabled (p : Plugin) : CallResult Bool :=
  match p.inner with
  | none => CallResult.panicked "initialized"
  | some inner => CallResult.ok inner.filters.enable_transaction_update

/-- `Plugin::entry_notifications_enabled` in plugin.rs: unconditionally
`true`, without touching the inner state. -/
def Plugin.entry_notifications_enabled (_p : Plugin) : CallResult Bool :=
  CallResult.ok true

/-- `Plugin::name` in plugin.rs: the compile-time package name and version
joined with a hyphen; independent of the plugin state. The two compile-time
strings are parameters, their concrete values being fixed by Cargo. -/
def Plugin.name (_p : Plugin) (pkg_name pkg_version : String) : CallResult String :=
  CallResult.ok (pkg_name ++ "-" ++ pkg_version)

/-- `Plugin::on_load` in plugin.rs: load the configuration (propagating its
error), then construct the inner state and store it. Building `PluginInner`
spawns the runtime and the configured servers — I/O outside the embedding —
so that construction step is an oracle `innerNew`; a `none` result is only
written over on full success. -/
def Plugin.on_load (p : Plugin) (fs : String → Except String JValue)
    (config_file : String) (_is_reload : Bool)
    (innerNew : Config → Except GeyserPluginError PluginInner) :
    Plugin × Except GeyserPluginError Unit :=
  match Config.load_from_file fs config_file with
  | Except.error e => (p, Except.error e)
  | Except.ok config =>
    match innerNew config with
    | Except.error e => (p, Except.error e)
    | Except.ok inner => ({ inner := some inner }, Except.ok ())

/-- Events currently pushed to the channel by a plugin, oldest first; empty
when unloaded. -/
def Plugin.channelMessages (p : Plugin) : List ProtobufMessage :=
  match p.inner with
  | none => []
  | some inner => inner.messages.pushed

/-- Plugin state reached by one `on_unload` call, the trace discarded. -/
def unloadState (p : Plugin) : Plugin :=
  (p.on_unload).1

/-! Concrete states used by the witnesses. -/

/-- A concrete filter configuration: account updates disabled, transaction
updates enabled, account payloads capped at 2 bytes. -/
def exampleFilters : ConfigFilters :=
  { enable_account_update := false
    enable_transaction_update := true
    max_account_data_size := some 2 }

/-- An empty, open channel. -/
def exampleSender : Sender :=
  { pushed := [], closed := false }

/-- Two spawned service tasks, the second of which errors on join. -/
def exampleTasks : List (String × JoinResult) :=
  [("gRPC Server", JoinResult.ok), ("Quic Server", JoinResult.err "task cancelled")]

/-- A concrete live plugin state. -/
def exampleInner : PluginInner :=
  { messages := exampleSender
    encoder := ProtobufEncoder.raw
    tasks := exampleTasks
    filters := exampleFilters }

/-- A concrete loaded plugin. -/
def examplePlugin : Plugin :=
  { inner := some exampleInner }

/-- A filesystem on which every file is unreadable. -/
def fsMissing : String → Except String JValue :=
  fun _ => Except.error "No such file or directory"

/-- An inner-construction oracle that always succeeds. -/
def innerNewOk : Config → Except GeyserPluginError PluginInner :=
  fun _ => Except.ok exampleInner

/-! Helper lemmas shared between the claim proofs. -/

/-- Monadic bind on an `Except` error short-circuits. -/
@[simp]
theorem except_err_bind {ε α β : Type} (m : ε) (f : α → Except ε β) :
    (Except.error m >>= f) = Except.error m := rfl

/-- Monadic bind on an `Except` success applies the continuation. -/
@[simp]
theorem except_ok_bind {ε α β : Type} (a : α) (f : α → Except ε β) :
    (Except.ok a >>= f) = f a := rfl

/-- `Except.mapError` on an error applies the message transformation. -/
@[simp]
theorem except_mapError_err {ε ε2 α : Type} (f : ε → ε2) (m : ε) :
    Except.mapError (α := α) f (Except.error m) = Except.error (f m) := rfl

/-- An object containing a key outside the accepted key set makes the
unknown-field scan fire. -/
theorem findUnknown_isSome_of_mem {known : List String} {fields : List (String × JValue)}
    {k : String} {v : JValue} (hmem : (k, v) ∈ fields) (hk : k ∉ known) :
    ∃ u, findUnknown known fields = some u := by
  have hsome : (fields.find? (fun kv => !(known.contains kv.1))).isSome := by
    rw [List.find?_isSome]
    exact ⟨(k, v), hmem, by simp [hk]⟩
  obtain ⟨kv, hkv⟩ := Option.isSome_iff_exists.mp hsome
  refine ⟨kv.1, ?_⟩
  unfold findUnknown
  rw [hkv]
  rfl

/-- `ConfigLogs.deserialize` rejects an object with an unknown field. -/
theorem configLogs_deserialize_err_of_unknown {lf : List (String × JValue)}
    {k : String} {v : JValue} (hmem : (k, v) ∈ lf) (hk : k ∉ configLogsKeys) :
    ∃ msg, ConfigLogs.deserialize (JValue.obj lf) = Except.error msg := by
  obtain ⟨u, hu⟩ := findUnknown_isSome_of_mem hmem hk
  refine ⟨"unknown field " ++ u, ?_⟩
  simp [ConfigLogs.deserialize, hu]

/-- `ConfigChannel.deserialize` rejects an object with an unknown field. -/
theorem configChannel_deserialize_err_of_unknown {cf : List (String × JValue)}
    {k : String} {v : JValue} (hmem : (k, v) ∈ cf) (hk : k ∉ configChannelKeys) :
    ∃ msg, ConfigChannel.deserialize (JValue.obj cf) = Except.error msg := by
  obtain ⟨u, hu⟩ := findUnknown_isSome_of_mem hmem hk
  refine ⟨"unknown field " ++ u, ?_⟩
  simp [ConfigChannel.deserialize, hu]

/-- `ConfigFilters.deserialize` rejects an object with an unknown field. -/
theorem configFilters_deserialize_err_of_unknown {ff : List (String × JValue)}
    {k : String} {v : JValue} (hmem : (k, v) ∈ ff) (hk : k ∉ configFiltersKeys) :
    ∃ msg, ConfigFilters.deserialize (JValue.obj ff) = Except.error msg := by
  obtain ⟨u, hu⟩ := findUnknown_isSome_of_mem hmem hk
  refine ⟨"unknown field " ++ u, ?_⟩
  simp [ConfigFilters.deserialize, hu]

/-! Claim theorems. -/

/-- C1 counterexample: on a loaded plugin, supplying the entry callback with
the older `V0_0_1` structural version does not produce a returned
"unsupported schema version" error condition; the call panics (Rust
`unreachable!`), i.e. it aborts rather than reporting without crashing, so
the claim as stated fails at this input. -/
theorem unsupported_version_not_error_return :
    ((examplePlugin.notify_entry (ReplicaEntryInfoVersions.v0_0_1 ())).2
      = CallResult.panicked "ReplicaEntryInfoVersions::V0_0_1 is not supported")
    ∧ (∀ e, (examplePlugin.notify_entry (ReplicaEntryInfoVersions.v0_0_1 ())).2
      ≠ CallResult.errorReturn e)
    ∧ ((examplePlugin.notify_entry (ReplicaEntryInfoVersions.v0_0_1 ())).2
      ≠ CallResult.ok ()) := by
  refine ⟨rfl, ?_, ?_⟩
  · intro e
    simp [Plugin.notify_entry]
  · simp [Plugin.notify_entry]

/-- C1 (amended): for every producer-facing callback, an event in an older
structural version than the newest supported one makes the call panic via
`unreachable!` with a descriptive "... is not supported" message naming the
version (in `notify_transaction` the source's messages name
`ReplicaAccountInfoVersions` verbatim, a copy-paste slip); the event is not
silently dropped and no `Ok` is returned, but the call aborts by panic
rather than returning a non-crashing error condition, leaving the plugin
state untouched. -/
theorem unsupported_version_panics_descriptively (p : Plugin) (slot : Nat) :
    (p.update_account (ReplicaAccountInfoVersions.v0_0_1 ()) slot false
      = (p, CallResult.panicked "ReplicaAccountInfoVersions::V0_0_1 is not supported"))
  ∧ (p.update_account (ReplicaAccountInfoVersions.v0_0_2 ()) slot false
      = (p, CallResult.panicked "ReplicaAccountInfoVersions::V0_0_2 is not supported"))
  ∧ (p.notify_transaction (ReplicaTransactionInfoVersions.v0_0_1 ()) slot
      = (p, CallResult.panicked "ReplicaAccountInfoVersions::V0_0_1 is not supported"))
  ∧ (p.notify_transaction (ReplicaTransactionInfoVersions.v0_0_2 ()) slot
      = (p, CallResult.panicked "ReplicaAccountInfoVersions::V0_0_2 is not supported"))
  ∧ (p.notify_entry (ReplicaEntryInfoVersions.v0_0_1 ())
      = (p, CallResult.panicked "ReplicaEntryInfoVersions::V0_0_1 is not supported"))
  ∧ (p.notify_block_metadata (ReplicaBlockInfoVersions.v0_0_1 ())
      = (p, CallResult.panicked "ReplicaBlockInfoVersions::V0_0_1 is not supported"))
  ∧ (p.notify_block_metadata (ReplicaBlockInfoVersions.v0_0_2 ())
      = (p, CallResult.panicked "ReplicaBlockInfoVersions::V0_0_2 is not supported"))
  ∧ (p.notify_block_metadata (ReplicaBlockInfoVersions.v0_0_3 ())
      = (p, CallResult.panicked "ReplicaBlockInfoVersions::V0_0_3 is not supported")) := by
  refine ⟨rfl, rfl, rfl, rfl, rfl, rfl, rfl, rfl⟩

/-- C4: the account-update callback with `is_startup = true` never pushes to
the channel and returns `Ok`, whatever the account version, the filter
settings or the load state: the whole plugin state is left untouched. -/
theorem update_account_startup_never_pushed (p : Plugin)
    (account : ReplicaAccountInfoVersions) (slot : Nat) :
    p.update_account account slot true = (p, CallResult.ok ())
  ∧ (p.update_account account slot true).1.channelMessages = p.channelMessages := by
  exact ⟨rfl, rfl⟩

/-- C8: the configuration defaults are log level `"info"`, `max_messages`
2097152, `max_bytes` 15 GiB (16106127360 bytes), the raw encoder, both
update filters enabled and `max_account_data_size` absent; a configuration
omitting every field deserializes to exactly these values. -/
theorem config_defaults_exact :
    ConfigLogs.default = { level := "info" }
  ∧ ConfigChannel.default = { encoder := ProtobufEncoder.raw, max_messages := 2097152, max_bytes := 16106127360 }
  ∧ ConfigChannel.default.max_bytes = 15 * 1024 * 1024 * 1024
  ∧ ConfigFilters.default = { enable_account_update := true, enable_transaction_update := true, max_account_data_size := none }
  ∧ Config.deserialize (JValue.obj [])
      = Except.ok { libpath := "", logs := ConfigLogs.default, metrics := none, tokio := ConfigTokio.default, channel := ConfigChannel.default, filters := ConfigFilters.default, quic := none, grpc := none } := by
  refine ⟨rfl, rfl, rfl, rfl, rfl⟩

/-- C9: on a loaded plugin the capability queries return exactly the
configured `enable_account_update` and `enable_transaction_update` flags,
entry notifications are always enabled and snapshot notifications are
always disabled. -/
theorem capability_flags (p : Plugin) (inner : PluginInner) (h : p.inner = some inner) :
    p.account_data_notifications_enabled = CallResult.ok inner.filters.enable_account_update
  ∧ p.transaction_notifications_enabled = CallResult.ok inner.filters.enable_transaction_update
  ∧ p.entry_notifications_enabled = CallResult.ok true
  ∧ p.account_data_snapshot_notifications_enabled = CallResult.ok false := by
  refine ⟨?_, ?_, rfl, rfl⟩
  · simp [Plugin.account_data_notifications_enabled, h]
  · simp [Plugin.transaction_notifications_enabled, h]

/-- C9 witness: the capability queries evaluated on a concrete loaded plugin
whose filters disable account updates and enable transaction updates. -/
theorem capability_flags_witness :
    examplePlugin.account_data_notifications_enabled = CallResult.ok false
  ∧ examplePlugin.transaction_notifications_enabled = CallResult.ok true
  ∧ examplePlugin.entry_notifications_enabled = CallResult.ok true
  ∧ examplePlugin.account_data_snapshot_notifications_enabled = CallResult.ok false :=
  capability_flags examplePlugin exampleInner rfl

/-- C2: unloading a loaded plugin performs exactly, and in this order: the
channel close, the raise of the shared cancellation token, one join await
per spawned task in spawn order, and finally the runtime teardown bounded at
10 seconds (after which still-running tasks are abandoned with the runtime);
the plugin ends unloaded. -/
theorem on_unload_shutdown_sequence (p : Plugin) (inner : PluginInner)
    (h : p.inner = some inner) :
    p.on_unload = ({ inner := none },
      ShutdownAction.closeChannel :: ShutdownAction.cancelToken ::
        (inner.tasks.map joinAction ++ [ShutdownAction.runtimeShutdownTimeout 10])) := by
  simp [Plugin.on_unload, h]

/-- C2 witness: the full shutdown trace of a concrete loaded plugin with two
spawned tasks. -/
theorem on_unload_shutdown_sequence_witness :
    examplePlugin.on_unload = ({ inner := none },
      [ShutdownAction.closeChannel, ShutdownAction.cancelToken,
        ShutdownAction.joinOk "gRPC Server",
        ShutdownAction.joinLoggedError "Quic Server" "task cancelled",
        ShutdownAction.runtimeShutdownTimeout 10]) :=
  on_unload_shutdown_sequence examplePlugin exampleInner rfl

/-- C3: during unload, a task whose join errors has that error logged
(`joinLoggedError` appears in the trace) and shutdown continues: every
spawned task is still awaited, the bounded runtime teardown still happens,
and the plugin still ends unloaded. -/
theorem join_error_logged_nonfatal (p : Plugin) (inner : PluginInner)
    (h : p.inner = some inner) :
    (∀ nm m, (nm, JoinResult.err m) ∈ inner.tasks →
        ShutdownAction.joinLoggedError nm m ∈ (p.on_unload).2)
  ∧ (∀ t ∈ inner.tasks, joinAction t ∈ (p.on_unload).2)
  ∧ (ShutdownAction.runtimeShutdownTimeout 10 ∈ (p.on_unload).2)
  ∧ ((p.on_unload).1.inner = none) := by
  have htrace : (p.on_unload).2 = ShutdownAction.closeChannel :: ShutdownAction.cancelToken ::
      (inner.tasks.map joinAction ++ [ShutdownAction.runtimeShutdownTimeout 10]) := by
    simp [Plugin.on_unload, h]
  have hjoin : ∀ t ∈ inner.tasks, joinAction t ∈ (p.on_unload).2 := by
    intro t ht
    rw [htrace]
    exact List.mem_cons_of_mem _ (List.mem_cons_of_mem _
      (List.mem_append_left _ (List.mem_map_of_mem joinAction ht)))
  refine ⟨?_, hjoin, ?_, ?_⟩
  · intro nm m hm
    exact hjoin (nm, JoinResult.err m) hm
  · rw [htrace]
    exact List.mem_cons_of_mem _ (List.mem_cons_of_mem _
      (List.mem_append_right _ (List.mem_singleton.mpr rfl)))
  · simp [Plugin.on_unload, h]

/-- C3 witness: on a concrete plugin with one erroring task, the join error
is in the trace, the teardown still happens and the plugin is unloaded. -/
theorem join_error_logged_nonfatal_witness :
    ShutdownAction.joinLoggedError "Quic Server" "task cancelled" ∈ (examplePlugin.on_unload).2
  ∧ ShutdownAction.runtimeShutdownTimeout 10 ∈ (examplePlugin.on_unload).2
  ∧ (examplePlugin.on_unload).1.inner = none := by
  have h := join_error_logged_nonfatal examplePlugin exampleInner rfl
  refine ⟨h.1 "Quic Server" "task cancelled" ?_, h.2.2.1, h.2.2.2⟩
  simp [exampleInner, exampleTasks]

/-- C6: `on_unload` is idempotent: on an instance whose `inner` is `none`
(never loaded, or already unloaded) it is a no-op with an empty action
trace, and iterating the state transition any positive number of times
reaches the same terminal state as one call. -/
theorem on_unload_idempotent :
    (∀ p : Plugin, p.inner = none → p.on_unload = (p, []))
  ∧ (∀ (p : Plugin) (n : Nat), unloadState^[n + 1] p = unloadState p) := by
  constructor
  · intro p h
    simp [Plugin.on_unload, h]
  · have hfix : ∀ p : Plugin, unloadState (unloadState p) = unloadState p := by
      intro p
      cases hp : p.inner with
      | none => simp [unloadState, Plugin.on_unload, hp]
      | some inner => simp [unloadState, Plugin.on_unload, hp]
    intro p n
    induction n with
    | zero => simp
    | succ n ih => rw [Function.iterate_succ_apply', ih, hfix]

/-- C6 witness: unload of a never-loaded instance is a no-op, and three
unloads of a loaded instance land in the same state as one. -/
theorem on_unload_idempotent_witness :
    (Plugin.mk none).on_unload = (Plugin.mk none, [])
  ∧ unloadState^[3] examplePlugin = unloadState examplePlugin :=
  ⟨on_unload_idempotent.1 (Plugin.mk none) rfl, on_unload_idempotent.2 examplePlugin 2⟩

/-- C10: on an unloaded instance, every callback that reaches the plugin
state panics with the `expect("initialized")` message — slot status,
transaction, entry and block metadata in their newest versions, account
update outside startup, and the account/transaction capability queries —
while startup account updates, end-of-startup, the constant capability
queries, `name` and `on_unload` return normally without touching state. -/
theorem uninitialized_callbacks_panic (p : Plugin)
    (slot : Nat) (parent : Option Nat) (status : SlotStatus)
    (a : ReplicaAccountInfoV3) (t : ReplicaTransactionInfoV3)
    (e : ReplicaEntryInfoV2) (b : ReplicaBlockInfoV4)
    (acct : ReplicaAccountInfoVersions) (pkg_name pkg_version : String)
    (h : p.inner = none) :
    ((p.update_slot_status slot parent status).2 = CallResult.panicked "initialized")
  ∧ ((p.notify_transaction (ReplicaTransactionInfoVersions.v0_0_3 t) slot).2
      = CallResult.panicked "initialized")
  ∧ ((p.notify_entry (ReplicaEntryInfoVersions.v0_0_2 e)).2
      = CallResult.panicked "initialized")
  ∧ ((p.notify_block_metadata (ReplicaBlockInfoVersions.v0_0_4 b)).2
      = CallResult.panicked "initialized")
  ∧ ((p.update_account (ReplicaAccountInfoVersions.v0_0_3 a) slot false).2
      = CallResult.panicked "initialized")
  ∧ (p.account_data_notifications_enabled = CallResult.panicked "initialized")
  ∧ (p.transaction_notifications_enabled = CallResult.panicked "initialized")
  ∧ (p.update_account acct slot true = (p, CallResult.ok ()))
  ∧ (p.notify_end_of_startup = (p, CallResult.ok ()))
  ∧ (p.entry_notifications_enabled = CallResult.ok true)
  ∧ (p.account_data_snapshot_notifications_enabled = CallResult.ok false)
  ∧ (p.name pkg_name pkg_version = CallResult.ok (pkg_name ++ "-" ++ pkg_version))
  ∧ (p.on_unload = (p, [])) := by
  refine ⟨?_, ?_, ?_, ?_, ?_, ?_, ?_, rfl, rfl, rfl, rfl, rfl, ?_⟩
  · simp [Plugin.update_slot_status, h]
  · simp [Plugin.notify_transaction, h]
  · simp [Plugin.notify_entry, h]
  · simp [Plugin.notify_block_metadata, h]
  · simp [Plugin.update_account, h]
  · simp [Plugin.account_data_notifications_enabled, h]
  · simp [Plugin.transaction_notifications_enabled, h]
  · simp [Plugin.on_unload, h]

/-- C10 witness: the panicking and non-panicking callbacks evaluated on a
concrete unloaded instance. -/
theorem uninitialized_callbacks_panic_witness :
    (((Plugin.mk none).update_slot_status 1 none SlotStatus.processed).2
      = CallResult.panicked "initialized")
  ∧ ((Plugin.mk none).account_data_notifications_enabled = CallResult.panicked "initialized")
  ∧ ((Plugin.mk none).update_account (ReplicaAccountInfoVersions.v0_0_3 { data := [] }) 1 true
      = (Plugin.mk none, CallResult.ok ()))
  ∧ ((Plugin.mk none).on_unload = (Plugin.mk none, [])) := by
  have h := uninitialized_callbacks_panic (Plugin.mk none) 1 none SlotStatus.processed
    { data := [] } ⟨⟩ ⟨⟩ ⟨⟩ (ReplicaAccountInfoVersions.v0_0_3 { data := [] })
    "richat-plugin-agave" "4.0.0" rfl
  exact ⟨h.1, h.2.2.2.2.2.1, h.2.2.2.2.2.2.2.1, h.2.2.2.2.2.2.2.2.2.2.2.2⟩

/-- C5: with `max_account_data_size` configured, an account update whose
data is strictly larger than the cap is silently dropped — `Ok` with the
whole state untouched — while an account update within the cap and every
other event category (slot status, transaction, entry, block metadata) is
pushed to the channel unconditionally. -/
theorem account_data_size_cap_drops_only_accounts (p : Plugin) (inner : PluginInner)
    (maxSize : Nat) (h : p.inner = some inner)
    (hm : inner.filters.max_account_data_size = some maxSize) :
    (∀ info slot, info.data.length > maxSize →
        p.update_account (ReplicaAccountInfoVersions.v0_0_3 info) slot false
          = (p, CallResult.ok ()))
  ∧ (∀ info slot, info.data.length ≤ maxSize →
        (p.update_account (ReplicaAccountInfoVersions.v0_0_3 info) slot false).1.channelMessages
            = p.channelMessages ++ [ProtobufMessage.account slot info]
        ∧ (p.update_account (ReplicaAccountInfoVersions.v0_0_3 info) slot false).2
            = CallResult.ok ())
  ∧ (∀ slot parent status,
        (p.update_slot_status slot parent status).1.channelMessages
            = p.channelMessages ++ [ProtobufMessage.slot slot parent status]
        ∧ (p.update_slot_status slot parent status).2 = CallResult.ok ())
  ∧ (∀ t slot,
        (p.notify_transaction (ReplicaTransactionInfoVersions.v0_0_3 t) slot).1.channelMessages
            = p.channelMessages ++ [ProtobufMessage.transaction slot t]
        ∧ (p.notify_transaction (ReplicaTransactionInfoVersions.v0_0_3 t) slot).2
            = CallResult.ok ())
  ∧ (∀ e,
        (p.notify_entry (ReplicaEntryInfoVersions.v0_0_2 e)).1.channelMessages
            = p.channelMessages ++ [ProtobufMessage.entry e]
        ∧ (p.notify_entry (ReplicaEntryInfoVersions.v0_0_2 e)).2 = CallResult.ok ())
  ∧ (∀ b,
        (p.notify_block_metadata (ReplicaBlockInfoVersions.v0_0_4 b)).1.channelMessages
            = p.channelMessages ++ [ProtobufMessage.blockMeta b]
        ∧ (p.notify_block_metadata (ReplicaBlockInfoVersions.v0_0_4 b)).2
            = CallResult.ok ()) := by
  refine ⟨?_, ?_, ?_, ?_, ?_, ?_⟩
  · intro info slot hgt
    simp [Plugin.update_account, h, hm, hgt]
  · intro info slot hle
    have hngt : ¬ info.data.length > maxSize := not_lt.mpr hle
    constructor <;>
      simp [Plugin.update_account, Plugin.channelMessages, Sender.push, h, hm, hngt]
  · intro slot parent status
    constructor <;>
      simp [Plugin.update_slot_status, Plugin.channelMessages, Sender.push, h]
  · intro t slot
    constructor <;>
      simp [Plugin.notify_transaction, Plugin.channelMessages, Sender.push, h]
  · intro e
    constructor <;>
      simp [Plugin.notify_entry, Plugin.channelMessages, Sender.push, h]
  · intro b
    constructor <;>
      simp [Plugin.notify_block_metadata, Plugin.channelMessages, Sender.push, h]

/-- C5 witness: on a concrete plugin with a 2-byte cap, a 3-byte account
update is dropped with the state untouched, a 2-byte one is pushed, and a
slot update is pushed regardless of the cap. -/
theorem account_data_size_cap_witness :
    (examplePlugin.update_account (ReplicaAccountInfoVersions.v0_0_3 { data := [7, 8, 9] }) 5 false
        = (examplePlugin, CallResult.ok ()))
  ∧ ((examplePlugin.update_account (ReplicaAccountInfoVersions.v0_0_3 { data := [7, 8] }) 5 false).1.channelMessages
        = [ProtobufMessage.account 5 { data := [7, 8] }])
  ∧ ((examplePlugin.update_slot_status 5 none SlotStatus.processed).1.channelMessages
        = [ProtobufMessage.slot 5 none SlotStatus.processed]) := by
  have h := account_data_size_cap_drops_only_accounts examplePlugin exampleInner 2 rfl rfl
  refine ⟨h.1 { data := [7, 8, 9] } 5 (by decide), ?_, ?_⟩
  · have h2 := (h.2.1 { data := [7, 8] } 5 (by decide)).1
    simpa [examplePlugin, exampleInner, exampleSender, Plugin.channelMessages] using h2
  · have h3 := (h.2.2.1 5 none SlotStatus.processed).1
    simpa [examplePlugin, exampleInner, exampleSender, Plugin.channelMessages] using h3

/-- C7: configuration loading fails with two distinct error sub-kinds — an
unreadable file yields `ConfigFileOpenError` with the I/O message, and
content failing schema validation yields `ConfigFileReadError` with the
decoder's message — schema validation rejects an unknown field at the top
level and inside the logs, channel and filters sections, and in every
failure `on_load` returns the error with the plugin state untouched
(`inner` remains `none`). -/
theorem config_load_error_kinds (fs : String → Except String JValue) (file : String)
    (innerNew : Config → Except GeyserPluginError PluginInner) (p : Plugin)
    (hp : p.inner = none) :
    (∀ ioMsg, fs file = Except.error ioMsg →
        p.on_load fs file false innerNew
            = (p, Except.error (GeyserPluginError.configFileOpenError ioMsg))
        ∧ (p.on_load fs file false innerNew).1.inner = none)
  ∧ (∀ j msg, fs file = Except.ok j → Config.deserialize j = Except.error msg →
        p.on_load fs file false innerNew
            = (p, Except.error (GeyserPluginError.configFileReadError msg))
        ∧ (p.on_load fs file false innerNew).1.inner = none)
  ∧ (∀ fields k v, (k, v) ∈ fields → k ∉ configKeys →
        ∃ msg, Config.deserialize (JValue.obj fields) = Except.error msg)
  ∧ (∀ fields lf k v, fields.lookup "logs" = some (JValue.obj lf) →
        (k, v) ∈ lf → k ∉ configLogsKeys →
        ∃ msg, Config.deserialize (JValue.obj fields) = Except.error msg)
  ∧ (∀ fields cf k v, fields.lookup "channel" = some (JValue.obj cf) →
        (k, v) ∈ cf → k ∉ configChannelKeys →
        ∃ msg, Config.deserialize (JValue.obj fields) = Except.error msg)
  ∧ (∀ fields ff k v, fields.lookup "filters" = some (JValue.obj ff) →
        (k, v) ∈ ff → k ∉ configFiltersKeys →
        ∃ msg, Config.deserialize (JValue.obj fields) = Except.error msg) := by
  refine ⟨?_, ?_, ?_, ?_, ?_, ?_⟩
  · intro ioMsg hio
    constructor <;>
      simp [Plugin.on_load, Config.load_from_file, hio, hp]
  · intro j msg hok hdes
    constructor <;>
      simp [Plugin.on_load, Config.load_from_file, Config.load_from_str, hok, hdes, hp]
  · intro fields k v hmem hk
    obtain ⟨u, hu⟩ := findUnknown_isSome_of_mem hmem hk
    refine ⟨"unknown field " ++ u, ?_⟩
    simp [Config.deserialize, hu]
  · intro fields lf k v hlook hmem hk
    cases hfu : findUnknown configKeys fields with
    | some u =>
      refine ⟨"unknown field " ++ u, ?_⟩
      simp [Config.deserialize, hfu]
    | none =>
      obtain ⟨m, hlm⟩ := configLogs_deserialize_err_of_unknown hmem hk
      cases hlib : decodeField fields "libpath" decodeString "" with
      | error m2 =>
        refine ⟨m2, ?_⟩
        simp [Config.deserialize, hfu, hlib]
      | ok s =>
        have hlgs : decodeField fields "logs" ConfigLogs.deserialize ConfigLogs.default
            = Except.error m := by
          simp [decodeField, hlook, hlm]
        refine ⟨m, ?_⟩
        simp [Config.deserialize, hfu, hlib, hlgs]
  · intro fields cf k v hlook hmem hk
    cases hfu : findUnknown configKeys fields with
    | some u =>
      refine ⟨"unknown field " ++ u, ?_⟩
      simp [Config.deserialize, hfu]
    | none =>
      obtain ⟨m, hcm⟩ := configChannel_deserialize_err_of_unknown hmem hk
      cases hlib : decodeField fields "libpath" decodeString "" with
      | error m2 =>
        refine ⟨m2, ?_⟩
        simp [Config.deserialize, hfu, hlib]
      | ok s =>
        cases hlg : decodeField fields "logs" ConfigLogs.deserialize ConfigLogs.default with
        | error m3 =>
          refine ⟨m3, ?_⟩
          simp [Config.deserialize, hfu, hlib, hlg]
        | ok lg =>
          cases hmet : decodeField fields "metrics" (decodeOption ConfigMetrics.deserialize) none with
          | error m4 =>
            refine ⟨m4, ?_⟩
            simp [Config.deserialize, hfu, hlib, hlg, hmet]
          | ok met =>
            cases htok : decodeField fields "tokio" ConfigTokio.deserialize ConfigTokio.default with
            | error m5 =>
              refine ⟨m5, ?_⟩
              simp [Config.deserialize, hfu, hlib, hlg, hmet, htok]
            | ok tok =>
              have hchs : decodeField fields "channel" ConfigChannel.deserialize
                  ConfigChannel.default = Except.error m := by
                simp [decodeField, hlook, hcm]
              refine ⟨m, ?_⟩
              simp [Config.deserialize, hfu, hlib, hlg, hmet, htok, hchs]
  · intro fields ff k v hlook hmem hk
    cases hfu : findUnknown configKeys fields with
    | some u =>
      refine ⟨"unknown field " ++ u, ?_⟩
      simp [Config.deserialize, hfu]
    | none =>
      obtain ⟨m, hfm⟩ := configFilters_deserialize_err_of_unknown hmem hk
      cases hlib : decodeField fields "libpath" decodeString "" with
      | error m2 =>
        refine ⟨m2, ?_⟩
        simp [Config.deserialize, hfu, hlib]
      | ok s =>
        cases hlg : decodeField fields "logs" ConfigLogs.deserialize ConfigLogs.default with
        | error m3 =>
          refine ⟨m3, ?_⟩
          simp [Config.deserialize, hfu, hlib, hlg]
        | ok lg =>
          cases hmet : decodeField fields "metrics" (decodeOption ConfigMetrics.deserialize) none with
          | error m4 =>
            refine ⟨m4, ?_⟩
            simp [Config.deserialize, hfu, hlib, hlg, hmet]
          | ok met =>
            cases htok : decodeField fields "tokio" ConfigTokio.deserialize ConfigTokio.default with
            | error m5 =>
              refine ⟨m5, ?_⟩
              simp [Config.deserialize, hfu, hlib, hlg, hmet, htok]
            | ok tok =>
              cases hch : decodeField fields "channel" ConfigChannel.deserialize ConfigChannel.default with
              | error m6 =>
                refine ⟨m6, ?_⟩
                simp [Config.deserialize, hfu, hlib, hlg, hmet, htok, hch]
              | ok ch =>
                have hffs : decodeField fields "filters" ConfigFilters.deserialize
                    ConfigFilters.default = Except.error m := by
                  simp [decodeField, hlook, hfm]
                refine ⟨m, ?_⟩
                simp [Config.deserialize, hfu, hlib, hlg, hmet, htok, hch, hffs]

/-- C7 witness: a concrete unreadable file produces the file-open error with
the plugin left unloaded, and a concrete object with a misspelt top-level
key fails schema validation. -/
theorem config_load_error_kinds_witness :
    ((Plugin.mk none).on_load fsMissing "config.json" false innerNewOk
        = (Plugin.mk none, Except.error (GeyserPluginError.configFileOpenError "No such file or directory")))
  ∧ (∃ msg, Config.deserialize (JValue.obj [("libpth", JValue.str "x")]) = Except.error msg) := by
  have h := config_load_error_kinds fsMissing "config.json" innerNewOk (Plugin.mk none) rfl
  exact ⟨(h.1 "No such file or directory" rfl).1,
    h.2.2.1 [("libpth", JValue.str "x")] "libpth" (JValue.str "x")
      (List.mem_singleton.mpr rfl) (by decide)⟩

end Richat
